import Mathlib

/-!
Verification of the LST (Land Surface Temperature) analysis tools.

The repository holds two Google Earth Engine scripts: a point-analysis
variant (`lstTootl.js`, function `analyzeLSTAtPoint`) and an area-analysis
variant (the shapefile tool, function `analyzeLSTForArea`).  Both share the
same cloud-masking and LST-calibration steps and differ in their
collection thresholds, per-image extraction fields, and aggregation.

The embedding below models:
  * a raster image as a list of named bands, each band a map from pixel
    index to a rational value together with a per-pixel validity mask
    (Earth Engine's mask semantics);
  * `maskClouds` and `calculateLST` exactly as in the source (both scripts
    contain identical copies);
  * collection building (`filterBounds` / `filterDate` / `CLOUD_COVER`
    filter / merge) from `analyzeLSTAtPoint` and `analyzeLSTForArea`;
  * per-image extraction (`extractLST`, both variants) as Earth Engine
    features, i.e. key/value property lists;
  * the time-series aggregation (validity filter, overall statistics,
    monthly / yearly / seasonal grouping) over typed observation records.

Fallible operations (selecting a band that may be absent) return `Option`.
Real-valued sensor arithmetic is carried out in `ℚ`; the one place where
this is not exact is the standard-deviation reducer, which is represented
by its square (the variance), since the square root of a rational is not
rational.  Key presence and null-propagation of that reducer are preserved.
-/

namespace LSTTool

/-- One raster band: per-pixel value and per-pixel validity (mask).
Pixels are indexed by natural numbers. -/
structure Band where
  pix : Nat → ℚ
  valid : Nat → Bool

/-- A raster image: an ordered list of named bands. -/
structure Image where
  bands : List (String × Band)

/-- `image.select(name)`: the first band with the given name, if any.
Selecting an absent band is an error in Earth Engine, hence `Option`. -/
def selectBand (image : Image) (name : String) : Option Band :=
  (image.bands.find? (fun nb => nb.1 == name)).map (fun nb => nb.2)

/-- `image.updateMask(m)`: intersect every band's validity with `m`. -/
def updateMask (image : Image) (m : Nat → Bool) : Image :=
  ⟨image.bands.map (fun nb => (nb.1, ⟨nb.2.pix, fun p => nb.2.valid p && m p⟩))⟩

/-- QA values are bit-encoded non-negative integers; the Earth Engine
`bitwiseAnd` acts on that integer reading of the band value. -/
def qaNat (q : ℚ) : Nat := q.num.toNat

/-- `maskClouds` (both scripts): select `QA_PIXEL` and mark a pixel
invalid when the cloud-shadow (bit 3), cloud (bit 4) or cirrus (bit 2)
flag is set. -/
def maskClouds (image : Image) : Option Image :=
  (selectBand image "QA_PIXEL").map (fun qa =>
    let cloudMask : Nat → Bool := fun p =>
      decide (Nat.land (qaNat (qa.pix p)) (1 <<< 3) = 0) &&
      decide (Nat.land (qaNat (qa.pix p)) (1 <<< 4) = 0) &&
      decide (Nat.land (qaNat (qa.pix p)) (1 <<< 2) = 0)
    updateMask image cloudMask)

/-- `band.multiply(k)` — per-pixel multiplication, mask unchanged. -/
def multiplyB (b : Band) (k : ℚ) : Band := ⟨fun p => b.pix p * k, b.valid⟩

/-- `band.add(k)` — per-pixel addition, mask unchanged. -/
def addB (b : Band) (k : ℚ) : Band := ⟨fun p => b.pix p + k, b.valid⟩

/-- `band.subtract(k)` — per-pixel subtraction, mask unchanged. -/
def subtractB (b : Band) (k : ℚ) : Band := ⟨fun p => b.pix p - k, b.valid⟩

/-- `image.addBands(bs)` — append new named bands to the band list. -/
def addBands (image : Image) (newBands : List (String × Band)) : Image :=
  ⟨image.bands ++ newBands⟩

/-- `calculateLST` (both scripts): select `ST_B10`, multiply by the scale
factor 0.00341802, add the offset 149.0, subtract 273.15 (Kelvin to
Celsius), rename to `LST` and append the result to the image. -/
def calculateLST (image : Image) : Option Image :=
  (selectBand image "ST_B10").map (fun b =>
    addBands image
      [("LST", subtractB (addB (multiplyB b (341802 / 100000000)) 149) (27315 / 100))])

/-- Validity of the named band's pixel `p` in an image. -/
def bandValid (image : Image) (name : String) (p : Nat) : Bool :=
  match selectBand image name with
  | some b => b.valid p
  | none => false

/-- Validity lifted to a possibly-failed image computation. -/
def obandValid (o : Option Image) (name : String) (p : Nat) : Bool :=
  match o with
  | some i => bandValid i name p
  | none => false

/-- Name and pixel value of the band appended last, lifted to `Option`. -/
def lastBandPix (o : Option Image) (p : Nat) : Option (String × ℚ) :=
  match o with
  | some i => i.bands.getLast?.map (fun nb => (nb.1, nb.2.pix p))
  | none => none

/- ### Image collection building -/

/-- One satellite observation as drawn from a source catalogue: the raster
plus the metadata the collection filters consult (`system:time_start`
represented as a day number, `CLOUD_COVER`, and the decomposed acquisition
date used later by `extractLST`). -/
structure SatImage where
  img : Image
  dateStr : String
  year : Nat
  month : Nat
  day : Nat
  doy : Nat
  timeStart : Nat
  cloudCover : ℚ

/-- `.filterBounds(geometry)`: keep images spatially intersecting the
geometry.  The intersection test itself is platform geometry code, so it
is abstracted as a boolean predicate supplied with the geometry. -/
def filterBounds (imgs : List SatImage) (intersects : SatImage → Bool) :
    List SatImage :=
  imgs.filter intersects

/-- `.filterDate(s, e)`: keep images acquired in `[s, e)`. -/
def filterDate (imgs : List SatImage) (s e : Nat) : List SatImage :=
  imgs.filter (fun i => decide (s ≤ i.timeStart) && decide (i.timeStart < e))

/-- `.filter(ee.Filter.lt('CLOUD_COVER', thr))`. -/
def filterCloudCover (imgs : List SatImage) (thr : ℚ) : List SatImage :=
  imgs.filter (fun i => decide (i.cloudCover < thr))

/-- The filter chain applied to one source catalogue, as in both scripts:
bounds, then date, then cloud cover.  The per-image `maskClouds` and
`calculateLST` maps that follow in the source leave membership one-to-one
and are modelled separately above. -/
def selectSource (imgs : List SatImage) (intersects : SatImage → Bool)
    (s e : Nat) (thr : ℚ) : List SatImage :=
  filterCloudCover (filterDate (filterBounds imgs intersects) s e) thr

/-- `landsat8.merge(landsat9)`: the merged collection of the two
independently filtered sources. -/
def buildCollection (l8 l9 : List SatImage) (intersects : SatImage → Bool)
    (s e : Nat) (thr : ℚ) : List SatImage :=
  selectSource l8 intersects s e thr ++ selectSource l9 intersects s e thr

/-- Cloud-cover threshold of the area (shapefile) variant. -/
def areaCloudThreshold : ℚ := 30

/-- Cloud-cover threshold of the point variant. -/
def pointCloudThreshold : ℚ := 20

/- ### Per-image extraction -/

/-- A value stored under a key of an Earth Engine feature: a string, a
number, or null. -/
inductive PVal where
  | str : String → PVal
  | num : ℚ → PVal
  | null : PVal
deriving DecidableEq

/-- Embed the result of a reducer into a feature value: absence of a
result (empty region) becomes null, exactly as `dictionary.get` yields
null for a reducer that produced nothing. -/
def optNum : Option ℚ → PVal
  | some q => PVal.num q
  | none => PVal.null

/-- Look up a property of a feature. -/
def getProp (f : List (String × PVal)) (key : String) : Option PVal :=
  (f.find? (fun kv => kv.1 == key)).map (fun kv => kv.2)

/-- `ee.Reducer.mean()` over a plain list of numbers. -/
def listMean (xs : List ℚ) : Option ℚ :=
  if xs.isEmpty then none else some (xs.sum / (xs.length : ℚ))

/-- `ee.Reducer.min()` over a plain list of numbers. -/
def listMin (xs : List ℚ) : Option ℚ :=
  match xs with
  | [] => none
  | x :: t => some (t.foldl min x)

/-- `ee.Reducer.max()` over a plain list of numbers. -/
def listMax (xs : List ℚ) : Option ℚ :=
  match xs with
  | [] => none
  | x :: t => some (t.foldl max x)

/-- The square of `ee.Reducer.stdDev()` (the variance): the standard
deviation itself is the square root of this, which is irrational in
general and therefore represented here by its square. -/
def listVariance (xs : List ℚ) : Option ℚ :=
  if xs.isEmpty then none
  else
    let m := xs.sum / (xs.length : ℚ)
    some ((xs.map (fun x => (x - m) ^ 2)).sum / (xs.length : ℚ))

/-- Insert a value into a sorted list, keeping it sorted. -/
def insertSorted (x : ℚ) : List ℚ → List ℚ
  | [] => [x]
  | y :: t => if x ≤ y then x :: y :: t else y :: insertSorted x t

/-- Insertion sort, the sorting step of the median reducer. -/
def sortVals (xs : List ℚ) : List ℚ := xs.foldr insertSorted []

/-- `ee.Reducer.median()`: middle element of the sorted values, the
midpoint of the two middle elements for an even count. -/
def listMedian (xs : List ℚ) : Option ℚ :=
  let s := sortVals xs
  if s.isEmpty then none
  else if s.length % 2 = 1 then s[s.length / 2]?
  else do
    let a ← s[s.length / 2 - 1]?
    let b ← s[s.length / 2]?
    pure ((a + b) / 2)

/-- The valid pixel values of a band over a region (a finite set of pixel
indices): masked pixels never contribute. -/
def regionVals (b : Band) (region : List Nat) : List ℚ :=
  (region.filter (fun p => b.valid p)).map b.pix

/-- `reduceRegion` with the mean reducer: null when no valid pixel. -/
def regionMean (b : Band) (region : List Nat) : Option ℚ :=
  listMean (regionVals b region)

/-- `reduceRegion` with the stdDev reducer, squared (see `listVariance`). -/
def regionVarSq (b : Band) (region : List Nat) : Option ℚ :=
  listVariance (regionVals b region)

/-- `reduceRegion` with the count reducer: the number of valid pixels. -/
def regionCount (b : Band) (region : List Nat) : Nat :=
  (region.filter (fun p => b.valid p)).length

/-- `extractLST` of the area (shapefile) variant: one feature per image
with date, LST mean / stdDev / count over the geometry, and the
decomposed date fields. -/
def extractLST_area (geometry : List Nat) (s : SatImage) :
    List (String × PVal) :=
  let lb := selectBand s.img "LST"
  [("date", PVal.str s.dateStr),
   ("LST_mean", optNum (lb.bind (fun b => regionMean b geometry))),
   ("LST_stdDev", optNum (lb.bind (fun b => regionVarSq b geometry))),
   ("LST_count", optNum (lb.map (fun b => (regionCount b geometry : ℚ)))),
   ("year", PVal.num (s.year : ℚ)),
   ("month", PVal.num (s.month : ℚ)),
   ("day", PVal.num (s.day : ℚ)),
   ("doy", PVal.num (s.doy : ℚ))]

/-- `extractLST` of the point variant: one feature per image with only
date, mean LST over the buffer, year, month, day. -/
def extractLST_point (geometry : List Nat) (s : SatImage) :
    List (String × PVal) :=
  [("date", PVal.str s.dateStr),
   ("LST", optNum ((selectBand s.img "LST").bind (fun b => regionMean b geometry))),
   ("year", PVal.num (s.year : ℚ)),
   ("month", PVal.num (s.month : ℚ)),
   ("day", PVal.num (s.day : ℚ))]

/- ### Time-series records and aggregation -/

/-- One row of the time series, typed: the nullable LST aggregates and the
decomposed date fields the groupings consult.  In the point variant the
single nullable aggregate (property `LST`) is `lstMean`; its records
simply never populate the stdDev / count / doy fields. -/
structure ObsRecord where
  date : String
  lstMean : Option ℚ
  lstStdDevSq : Option ℚ
  lstCount : Option ℚ
  year : Nat
  month : Nat
  day : Nat
  doy : Nat
deriving DecidableEq

/-- `lstTimeSeries.filter(ee.Filter.neq('LST_mean', null))` (area
variant, line 98): drop records whose LST mean is null. -/
def validTimeSeries (ts : List ObsRecord) : List ObsRecord :=
  ts.filter (fun r => r.lstMean.isSome)

/-- `aggregate_array` of the LST mean followed by `removeAll([null])`. -/
def aggregateValid (rs : List ObsRecord) : List ℚ :=
  (rs.map (fun r => r.lstMean)).filterMap id

/-- The overall statistics record of the area variant. -/
structure OverallStats where
  count : Nat
  mean : Option ℚ
  min : Option ℚ
  max : Option ℚ
  stdSq : Option ℚ
  median : Option ℚ
deriving DecidableEq

/-- Overall statistics (area variant, lines 104-115): computed over the
null-filtered LST means of the null-filtered time series. -/
def overallStats (ts : List ObsRecord) : OverallStats :=
  let validLST := aggregateValid (validTimeSeries ts)
  { count := validLST.length
    mean := listMean validLST
    min := listMin validLST
    max := listMax validLST
    stdSq := listVariance validLST
    median := listMedian validLST }

/-- Per-bucket statistics row (monthly / yearly / seasonal). -/
structure BucketStats where
  count : Nat
  mean : Option ℚ
  min : Option ℚ
  max : Option ℚ
deriving DecidableEq

/-- The records feeding the month bucket `m` (area variant, line 128):
drawn from the null-filtered series. -/
def monthData_area (ts : List ObsRecord) (m : Nat) : List ObsRecord :=
  (validTimeSeries ts).filter (fun r => decide (r.month = m))

/-- Month-bucket statistics (area variant, lines 127-139). -/
def monthStat (ts : List ObsRecord) (m : Nat) : BucketStats :=
  let validMonthLST := aggregateValid (monthData_area ts m)
  ⟨validMonthLST.length, listMean validMonthLST, listMin validMonthLST,
    listMax validMonthLST⟩

/-- `ee.List.sequence(1, 12)`. -/
def monthsList : List Nat := List.range' 1 12

/-- The 12 monthly statistics rows. -/
def monthlyStats (ts : List ObsRecord) : List BucketStats :=
  monthsList.map (monthStat ts)

/-- The records feeding the year bucket `y` (area variant, line 148):
drawn from the null-filtered series. -/
def yearData_area (ts : List ObsRecord) (y : Nat) : List ObsRecord :=
  (validTimeSeries ts).filter (fun r => decide (r.year = y))

/-- Year-bucket statistics (area variant, lines 147-159). -/
def yearStat (ts : List ObsRecord) (y : Nat) : BucketStats :=
  let validYearLST := aggregateValid (yearData_area ts y)
  ⟨validYearLST.length, listMean validYearLST, listMin validYearLST,
    listMax validYearLST⟩

/-- `ee.List.sequence(2014, 2023)`. -/
def yearsList : List Nat := List.range' 2014 10

/-- The yearly statistics rows. -/
def yearlyLST (ts : List ObsRecord) : List BucketStats :=
  yearsList.map (yearStat ts)

/-- The four seasons (area variant, lines 165-170). -/
def seasonsList : List (String × List Nat) :=
  [("Winter (Dec-Feb)", [12, 1, 2]),
   ("Spring (Mar-May)", [3, 4, 5]),
   ("Monsoon (Jun-Aug)", [6, 7, 8]),
   ("Post-Monsoon (Sep-Nov)", [9, 10, 11])]

/-- The records feeding a season bucket (area variant, line 174):
drawn from the null-filtered series via `ee.Filter.inList`. -/
def seasonData_area (ts : List ObsRecord) (months : List Nat) :
    List ObsRecord :=
  (validTimeSeries ts).filter (fun r => decide (r.month ∈ months))

/-- Season-bucket statistics (area variant, lines 173-183). -/
def seasonStat (ts : List ObsRecord) (months : List Nat) : BucketStats :=
  let validSeasonLST := aggregateValid (seasonData_area ts months)
  ⟨validSeasonLST.length, listMean validSeasonLST, listMin validSeasonLST,
    listMax validSeasonLST⟩

/-- The records feeding the year bucket `y` in the POINT variant
(`lstTootl.js`, line 112): the filter is applied to the raw, un-filtered
time series, not to a null-filtered one. -/
def yearData_point (ts : List ObsRecord) (y : Nat) : List ObsRecord :=
  ts.filter (fun r => decide (r.year = y))

/- ### Concrete fixtures for witnesses and counterexamples -/

/-- QA test band: the value 24 has bits 3 and 4 set. -/
def qaTestBand : Band := ⟨fun _ => ((24 : ℕ) : ℚ), fun _ => true⟩

/-- Thermal test band holding the digital number 10000. -/
def stTestBand : Band := ⟨fun _ => 10000, fun _ => true⟩

/-- A fully masked (all pixels invalid) LST band. -/
def maskedLSTBand : Band := ⟨fun _ => 0, fun _ => false⟩

def testImage : Image := ⟨[("QA_PIXEL", qaTestBand), ("ST_B10", stTestBand)]⟩

/-- An image whose LST band is fully masked. -/
def maskedImage : Image := ⟨[("LST", maskedLSTBand)]⟩

/-- A concrete observation used to instantiate the collection and
extraction theorems. -/
def testSatImage : SatImage :=
  { img := testImage
    dateStr := "2014-07-01"
    year := 2014
    month := 7
    day := 1
    doy := 181
    timeStart := 5
    cloudCover := 10 }

/-- The fully cloud-masked observation. -/
def maskedSatImage : SatImage :=
  { testSatImage with img := maskedImage }

/-- A record whose LST aggregate is null (its region was fully masked). -/
def nullRec : ObsRecord :=
  ⟨"2014-07-01", none, none, none, 2014, 7, 1, 181⟩

/-- A record with a valid LST mean. -/
def validRec : ObsRecord :=
  ⟨"2015-03-02", some 20, some 1, some 9, 2015, 3, 2, 60⟩

/-- Records carrying the LST means 20, 25 and 30 used by the overall
statistics example. -/
def statRecs : List ObsRecord :=
  [⟨"2015-03-02", some 20, some 1, some 9, 2015, 3, 2, 60⟩,
   ⟨"2016-04-03", some 25, some 1, some 9, 2016, 4, 3, 93⟩,
   ⟨"2017-05-04", some 30, some 1, some 9, 2017, 5, 4, 123⟩]

/- ### Helper lemmas about the image model -/

theorem find?_name_map (l : List (String × Band)) (name : String)
    (g : String × Band → Band) :
    (l.map (fun nb => (nb.1, g nb))).find? (fun nb => nb.1 == name) =
      (l.find? (fun nb => nb.1 == name)).map (fun nb => (nb.1, g nb)) := by
  induction l with
  | nil => rfl
  | cons nb t ih =>
    cases h : (nb.1 == name) <;> simp [List.find?_cons, h, ih]

theorem selectBand_updateMask (image : Image) (m : Nat → Bool) (name : String) :
    selectBand (updateMask image m) name =
      (selectBand image name).map (fun b => ⟨b.pix, fun p => b.valid p && m p⟩) := by
  unfold selectBand updateMask
  rw [find?_name_map image.bands name (fun nb => ⟨nb.2.pix, fun p => nb.2.valid p && m p⟩)]
  cases image.bands.find? (fun nb => nb.1 == name) <;> rfl

theorem bandValid_updateMask (image : Image) (m : Nat → Bool) (name : String) (p : Nat) :
    bandValid (updateMask image m) name p = (bandValid image name p && m p) := by
  unfold bandValid
  rw [selectBand_updateMask]
  cases selectBand image name <;> simp

theorem land_one_shiftLeft_eq_zero (n k : Nat) :
    (Nat.land n (1 <<< k) = 0) ↔ n.testBit k = false := by
  have h1 : (1 : Nat) <<< k = 2 ^ k := by
    rw [Nat.shiftLeft_eq, one_mul]
  have h2 : Nat.land n (2 ^ k) = n &&& 2 ^ k := rfl
  rw [h1, h2, Nat.and_two_pow]
  cases h : n.testBit k
  · simp [h]
  · simp [h, pow_ne_zero k (by norm_num : (2:ℕ) ≠ 0)]

/- ### Claim C2: cloud mask validity -/

/-- Claim C2: after `maskClouds`, a pixel of any band is valid iff it was
valid before and none of QA bits 3 (cloud shadow), 4 (cloud) and
2 (cirrus) is set; consequently the valid set never grows. -/
theorem maskClouds_valid_iff (image : Image) (qa : Band) (n : Nat → Nat)
    (hqa : selectBand image "QA_PIXEL" = some qa)
    (hn : ∀ p, qa.pix p = (n p : ℚ)) (name : String) (p : Nat) :
    (obandValid (maskClouds image) name p = true ↔
      (bandValid image name p = true ∧ (n p).testBit 3 = false ∧
        (n p).testBit 4 = false ∧ (n p).testBit 2 = false)) ∧
    (obandValid (maskClouds image) name p = true →
      bandValid image name p = true) := by
  have hq : qaNat (qa.pix p) = n p := by
    rw [hn p]; simp [qaNat]
  have hmain : obandValid (maskClouds image) name p = true ↔
      (bandValid image name p = true ∧ (n p).testBit 3 = false ∧
        (n p).testBit 4 = false ∧ (n p).testBit 2 = false) := by
    unfold maskClouds obandValid
    rw [hqa]
    simp only [Option.map_some']
    rw [bandValid_updateMask]
    simp only [Bool.and_eq_true, decide_eq_true_eq, hq,
      land_one_shiftLeft_eq_zero]
    tauto
  exact ⟨hmain, fun h => (hmain.mp h).1⟩

theorem maskClouds_valid_iff_witness :
    (obandValid (maskClouds testImage) "ST_B10" 0 = true ↔
      (bandValid testImage "ST_B10" 0 = true ∧ (24 : ℕ).testBit 3 = false ∧
        (24 : ℕ).testBit 4 = false ∧ (24 : ℕ).testBit 2 = false)) ∧
    (obandValid (maskClouds testImage) "ST_B10" 0 = true →
      bandValid testImage "ST_B10" 0 = true) :=
  maskClouds_valid_iff testImage qaTestBand (fun _ => 24) rfl (fun _ => rfl)
    "ST_B10" 0

/- ### Claim C1: the LST calibration formula -/

/-- Claim C1: the band produced by `calculateLST` is named `LST` and holds
`dn * 0.00341802 + 149.0 - 273.15` at each pixel (scale factor first, both
additive terms after); in particular a digital number of 10000 yields
-89.9698 °C. -/
theorem calculateLST_pixel (image : Image) (b : Band)
    (h : selectBand image "ST_B10" = some b) (p : Nat) :
    lastBandPix (calculateLST image) p =
      some ("LST", b.pix p * (341802 / 100000000) + 149 - 27315 / 100) ∧
    (b.pix p = 10000 →
      lastBandPix (calculateLST image) p = some ("LST", -(449849 / 5000))) := by
  have h1 : lastBandPix (calculateLST image) p =
      some ("LST", b.pix p * (341802 / 100000000) + 149 - 27315 / 100) := by
    unfold calculateLST lastBandPix
    rw [h]
    simp [addBands, multiplyB, addB, subtractB]
  refine ⟨h1, fun hp => ?_⟩
  rw [h1, hp]
  refine congrArg some (congrArg (Prod.mk "LST") ?_)
  norm_num

theorem calculateLST_pixel_witness :
    lastBandPix (calculateLST testImage) 0 = some ("LST", -(449849 / 5000)) :=
  (calculateLST_pixel testImage stTestBand rfl 0).2 rfl

/- ### Claim C9: calculateLST appends and preserves -/

/-- Claim C9: `calculateLST` appends one band named `LST`; every
pre-existing band (name and content) survives unchanged as the prefix of
the new band list, and the source image itself is untouched (the function
returns a fresh image). -/
theorem calculateLST_appendsBand (image : Image) (b : Band)
    (h : selectBand image "ST_B10" = some b) :
    (calculateLST image).map (fun i => i.bands.map Prod.fst) =
      some (image.bands.map Prod.fst ++ ["LST"]) ∧
    (calculateLST image).map (fun i => i.bands.take image.bands.length) =
      some image.bands := by
  unfold calculateLST
  rw [h]
  constructor
  · simp [addBands]
  · simp [addBands, List.take_left]

theorem calculateLST_appendsBand_witness :
    (calculateLST testImage).map (fun i => i.bands.map Prod.fst) =
      some (testImage.bands.map Prod.fst ++ ["LST"]) ∧
    (calculateLST testImage).map (fun i => i.bands.take testImage.bands.length) =
      some testImage.bands :=
  calculateLST_appendsBand testImage stTestBand rfl

/- ### Claim C3: collection membership -/

/-- Claim C3: an image drawn from either source belongs to the built
collection iff it intersects the geometry, its date lies in `[s, e)` and
its cloud cover is strictly below the variant's threshold (30 for area
analysis, 20 for point analysis); the collection is the merge of the two
independently filtered sources. -/
theorem buildCollection_mem (l8 l9 : List SatImage)
    (intersects : SatImage → Bool) (s e : Nat) (i : SatImage)
    (hsrc : i ∈ l8 ∨ i ∈ l9) :
    (i ∈ buildCollection l8 l9 intersects s e areaCloudThreshold ↔
      (intersects i = true ∧ s ≤ i.timeStart ∧ i.timeStart < e ∧
        i.cloudCover < 30)) ∧
    (i ∈ buildCollection l8 l9 intersects s e pointCloudThreshold ↔
      (intersects i = true ∧ s ≤ i.timeStart ∧ i.timeStart < e ∧
        i.cloudCover < 20)) := by
  have key : ∀ thr : ℚ,
      i ∈ buildCollection l8 l9 intersects s e thr ↔
        (intersects i = true ∧ s ≤ i.timeStart ∧ i.timeStart < e ∧
          i.cloudCover < thr) := by
    intro thr
    unfold buildCollection selectSource filterCloudCover filterDate filterBounds
    simp only [List.mem_append, List.mem_filter, Bool.and_eq_true,
      decide_eq_true_eq]
    constructor
    · rintro (⟨⟨⟨_, h1⟩, h2⟩, h3⟩ | ⟨⟨⟨_, h1⟩, h2⟩, h3⟩) <;>
        exact ⟨h1, h2.1, h2.2, h3⟩
    · rintro ⟨h1, h2, h3, h4⟩
      rcases hsrc with h | h
      · exact Or.inl ⟨⟨⟨h, h1⟩, h2, h3⟩, h4⟩
      · exact Or.inr ⟨⟨⟨h, h1⟩, h2, h3⟩, h4⟩
  exact ⟨key areaCloudThreshold, key pointCloudThreshold⟩

theorem buildCollection_mem_witness :
    (testSatImage ∈ buildCollection [testSatImage] [] (fun _ => true) 0 10
        areaCloudThreshold ↔
      ((fun (_ : SatImage) => true) testSatImage = true ∧
        0 ≤ testSatImage.timeStart ∧ testSatImage.timeStart < 10 ∧
        testSatImage.cloudCover < 30)) ∧
    (testSatImage ∈ buildCollection [testSatImage] [] (fun _ => true) 0 10
        pointCloudThreshold ↔
      ((fun (_ : SatImage) => true) testSatImage = true ∧
        0 ≤ testSatImage.timeStart ∧ testSatImage.timeStart < 10 ∧
        testSatImage.cloudCover < 20)) :=
  buildCollection_mem [testSatImage] [] (fun _ => true) 0 10 testSatImage
    (Or.inl (List.mem_singleton.mpr rfl))

/- ### Claim C8: fields of the extracted records -/

/-- Claim C8 as stated is false: the point variant's extractor emits no
`LST_stdDev` property (nor `LST_count` nor `doy`), as this concrete
record shows. -/
theorem extractLST_point_missing_field :
    ¬ ("LST_stdDev" ∈ (extractLST_point [0] testSatImage).map Prod.fst) := by
  decide

/-- Claim C8 (amended): area-variant records carry exactly the fields
date, LST_mean, LST_stdDev, LST_count, year, month, day, doy;
point-variant records carry only date, LST, year, month, day. -/
theorem extract_record_fields (g : List Nat) (s : SatImage) :
    (extractLST_area g s).map Prod.fst =
      ["date", "LST_mean", "LST_stdDev", "LST_count",
        "year", "month", "day", "doy"] ∧
    (extractLST_point g s).map Prod.fst =
      ["date", "LST", "year", "month", "day"] :=
  ⟨rfl, rfl⟩

/- ### Claim C10: one record per image, null on fully masked regions -/

/-- Claim C10: the extractor emits exactly one record per collection
image (the record count equals the image count), and a fully masked
region produces a record whose LST aggregate is null rather than an
omission or a failure. -/
theorem extract_one_per_image (g : List Nat) (imgs : List SatImage)
    (s : SatImage) (b : Band) (hb : selectBand s.img "LST" = some b)
    (hmask : ∀ p ∈ g, b.valid p = false) :
    (imgs.map (extractLST_point g)).length = imgs.length ∧
    (imgs.map (extractLST_area g)).length = imgs.length ∧
    getProp (extractLST_point g s) "LST" = some PVal.null ∧
    getProp (extractLST_area g s) "LST_mean" = some PVal.null := by
  have hvals : regionVals b g = [] := by
    unfold regionVals
    have hf : g.filter (fun p => b.valid p) = [] := by
      induction g with
      | nil => rfl
      | cons p t ih =>
        have hp := hmask p (List.mem_cons_self p t)
        simp only [List.filter_cons, hp, Bool.false_eq_true, if_false]
        exact ih (fun q hq => hmask q (List.mem_cons_of_mem p hq))
    rw [hf]; rfl
  have hmean : regionMean b g = none := by
    unfold regionMean
    rw [hvals]; rfl
  refine ⟨by simp, by simp, ?_, ?_⟩
  · simp [extractLST_point, getProp, hb, hmean, optNum]
  · simp [extractLST_area, getProp, hb, hmean, optNum]

theorem extract_one_per_image_witness :
    ([maskedSatImage].map (extractLST_point [0])).length =
      [maskedSatImage].length ∧
    ([maskedSatImage].map (extractLST_area [0])).length =
      [maskedSatImage].length ∧
    getProp (extractLST_point [0] maskedSatImage) "LST" = some PVal.null ∧
    getProp (extractLST_area [0] maskedSatImage) "LST_mean" = some PVal.null :=
  extract_one_per_image [0] [maskedSatImage] maskedSatImage maskedLSTBand rfl
    (fun _ _ => rfl)

/- ### Claim C5: empty input and empty buckets -/

/-- Claim C5: on the empty record set the aggregator yields count 0 with
null mean / min / max / stdDev / median, and a bucket that receives no
records yields a count-0 row with null statistics; no step fails. -/
theorem aggregator_empty (ts : List ObsRecord) (m : Nat)
    (h : monthData_area ts m = []) :
    ((overallStats []).count = 0 ∧ (overallStats []).mean = none ∧
      (overallStats []).min = none ∧ (overallStats []).max = none ∧
      (overallStats []).stdSq = none ∧ (overallStats []).median = none) ∧
    ((monthStat ts m).count = 0 ∧ (monthStat ts m).mean = none ∧
      (monthStat ts m).min = none ∧ (monthStat ts m).max = none) := by
  constructor
  · exact ⟨rfl, rfl, rfl, rfl, rfl, rfl⟩
  · unfold monthStat
    rw [h]
    exact ⟨rfl, rfl, rfl, rfl⟩

theorem aggregator_empty_witness :
    ((overallStats []).count = 0 ∧ (overallStats []).mean = none ∧
      (overallStats []).min = none ∧ (overallStats []).max = none ∧
      (overallStats []).stdSq = none ∧ (overallStats []).median = none) ∧
    ((monthStat [validRec] 7).count = 0 ∧ (monthStat [validRec] 7).mean = none ∧
      (monthStat [validRec] 7).min = none ∧ (monthStat [validRec] 7).max = none) :=
  aggregator_empty [validRec] 7 rfl

/- ### Claim C7: overall statistics -/

theorem foldl_min_mem (t : List ℚ) (x : ℚ) : t.foldl min x ∈ x :: t := by
  induction t generalizing x with
  | nil => exact List.mem_singleton.mpr rfl
  | cons y t ih =>
    have h := ih (min x y)
    rcases List.mem_cons.mp h with h | h
    · rcases min_choice x y with hc | hc <;> rw [List.foldl_cons, h, hc]
      · exact List.mem_cons_self x (y :: t)
      · exact List.mem_cons_of_mem x (List.mem_cons_self y t)
    · exact List.mem_cons_of_mem x (List.mem_cons_of_mem y
        (by rw [List.foldl_cons]; exact h))

theorem foldl_min_le (t : List ℚ) (x : ℚ) : ∀ z ∈ x :: t, t.foldl min x ≤ z := by
  induction t generalizing x with
  | nil =>
    intro z hz
    rw [List.mem_singleton.mp hz]
    exact le_refl x
  | cons y t ih =>
    intro z hz
    have hhead : (y :: t).foldl min x ≤ min x y :=
      ih (min x y) (min x y) (List.mem_cons_self _ t)
    rcases List.mem_cons.mp hz with rfl | h
    · exact le_trans hhead (min_le_left z y)
    · rcases List.mem_cons.mp h with rfl | h
      · exact le_trans hhead (min_le_right x z)
      · exact ih (min x y) z (List.mem_cons_of_mem _ h)

theorem foldl_max_mem (t : List ℚ) (x : ℚ) : t.foldl max x ∈ x :: t := by
  induction t generalizing x with
  | nil => exact List.mem_singleton.mpr rfl
  | cons y t ih =>
    have h := ih (max x y)
    rcases List.mem_cons.mp h with h | h
    · rcases max_choice x y with hc | hc <;> rw [List.foldl_cons, h, hc]
      · exact List.mem_cons_self x (y :: t)
      · exact List.mem_cons_of_mem x (List.mem_cons_self y t)
    · exact List.mem_cons_of_mem x (List.mem_cons_of_mem y
        (by rw [List.foldl_cons]; exact h))

theorem le_foldl_max (t : List ℚ) (x : ℚ) : ∀ z ∈ x :: t, z ≤ t.foldl max x := by
  induction t generalizing x with
  | nil =>
    intro z hz
    rw [List.mem_singleton.mp hz]
    exact le_refl x
  | cons y t ih =>
    intro z hz
    have hhead : max x y ≤ (y :: t).foldl max x :=
      ih (max x y) (max x y) (List.mem_cons_self _ t)
    rcases List.mem_cons.mp hz with rfl | h
    · exact le_trans (le_max_left z y) hhead
    · rcases List.mem_cons.mp h with rfl | h
      · exact le_trans (le_max_right x z) hhead
      · exact ih (max x y) z (List.mem_cons_of_mem _ h)

/-- Claim C7: the overall statistics are the count, arithmetic mean,
minimum and maximum (and median, for the concrete case of the claim) of
the valid LST means; in particular means 20, 25, 30 give mean 25, min 20,
max 30, count 3 (and median 25). -/
theorem overallStats_correct (ts : List ObsRecord)
    (h : aggregateValid (validTimeSeries ts) ≠ []) :
    (overallStats ts).count = (aggregateValid (validTimeSeries ts)).length ∧
    (overallStats ts).mean =
      some ((aggregateValid (validTimeSeries ts)).sum /
        ((aggregateValid (validTimeSeries ts)).length : ℚ)) ∧
    (∃ a, (overallStats ts).min = some a ∧
      a ∈ aggregateValid (validTimeSeries ts) ∧
      ∀ x ∈ aggregateValid (validTimeSeries ts), a ≤ x) ∧
    (∃ c, (overallStats ts).max = some c ∧
      c ∈ aggregateValid (validTimeSeries ts) ∧
      ∀ x ∈ aggregateValid (validTimeSeries ts), x ≤ c) ∧
    (aggregateValid (validTimeSeries ts) = [20, 25, 30] →
      (overallStats ts).count = 3 ∧ (overallStats ts).mean = some 25 ∧
      (overallStats ts).min = some 20 ∧ (overallStats ts).max = some 30 ∧
      (overallStats ts).median = some 25) := by
  set vals := aggregateValid (validTimeSeries ts) with hvals
  have hcount : (overallStats ts).count = vals.length := rfl
  have hmean : (overallStats ts).mean = listMean vals := rfl
  have hmin : (overallStats ts).min = listMin vals := rfl
  have hmax : (overallStats ts).max = listMax vals := rfl
  have hmed : (overallStats ts).median = listMedian vals := rfl
  have hne : vals.isEmpty = false := by
    cases hv : vals with
    | nil => exact absurd hv h
    | cons a t => rfl
  refine ⟨hcount, ?_, ?_, ?_, ?_⟩
  · rw [hmean]
    unfold listMean
    rw [hne]
    rfl
  · cases hv : vals with
    | nil => exact absurd hv h
    | cons a t =>
      refine ⟨t.foldl min a, ?_, ?_, ?_⟩
      · rw [hmin, hv]; rfl
      · exact foldl_min_mem t a
      · exact foldl_min_le t a
  · cases hv : vals with
    | nil => exact absurd hv h
    | cons a t =>
      refine ⟨t.foldl max a, ?_, ?_, ?_⟩
      · rw [hmax, hv]; rfl
      · exact foldl_max_mem t a
      · exact le_foldl_max t a
  · intro hv
    refine ⟨?_, ?_, ?_, ?_, ?_⟩
    · rw [hcount, hv]; rfl
    · rw [hmean, hv]
      norm_num [listMean]
    · rw [hmin, hv]
      simp only [listMin, List.foldl]
      norm_num [min_def]
    · rw [hmax, hv]
      simp only [listMax, List.foldl]
      norm_num [max_def]
    · rw [hmed, hv]
      norm_num [listMedian, sortVals, insertSorted, List.foldr]

theorem overallStats_correct_witness :
    (overallStats statRecs).count = 3 ∧
    (overallStats statRecs).mean = some 25 ∧
    (overallStats statRecs).min = some 20 ∧
    (overallStats statRecs).max = some 30 ∧
    (overallStats statRecs).median = some 25 :=
  (overallStats_correct statRecs (by decide)).2.2.2.2 (by decide)

/- ### Claim C4: which record set the groupings consume -/

/-- Claim C4 as stated is false for the point variant: its yearly
grouping filters the raw time series (`lstTootl.js`, line 112), so a
per-year input can contain a record whose LST mean is null, as this
concrete one-record series shows. -/
theorem yearData_point_null_input :
    nullRec ∈ yearData_point [nullRec] 2014 ∧ nullRec.lstMean = none := by
  constructor
  · decide
  · rfl

/-- Claim C4 (amended): in the area variant the null records are
discarded first and every grouping (monthly, yearly, seasonal) draws from
that same null-filtered set, so no bucket input contains a null LST mean;
in the point variant the yearly grouping reads the unfiltered series. -/
theorem area_groupings_filtered (ts : List ObsRecord) (m y : Nat)
    (months : List Nat) (r : ObsRecord)
    (h : r ∈ monthData_area ts m ∨ r ∈ yearData_area ts y ∨
      r ∈ seasonData_area ts months) :
    r ∈ validTimeSeries ts ∧ r.lstMean ≠ none := by
  have key : r ∈ validTimeSeries ts := by
    rcases h with h | h | h <;> exact (List.mem_filter.mp h).1
  refine ⟨key, ?_⟩
  have hs : r.lstMean.isSome = true := (List.mem_filter.mp key).2
  exact Option.isSome_iff_ne_none.mp hs

theorem area_groupings_filtered_witness :
    validRec ∈ validTimeSeries [validRec] ∧ validRec.lstMean ≠ none :=
  area_groupings_filtered [validRec] 3 2015 [3, 4, 5] validRec
    (Or.inl (by decide))

/- ### Claim C6: the groupings partition the valid records -/

theorem sum_map_add_nat {K : Type} (keys : List K) (f g : K → Nat) :
    (keys.map (fun k => f k + g k)).sum = (keys.map f).sum + (keys.map g).sum := by
  induction keys with
  | nil => rfl
  | cons k t ih => simp [ih]; omega

theorem sum_ite_length {K : Type} (keys : List K) (q : K → Bool) :
    (keys.map (fun k => if q k then 1 else 0)).sum = (keys.filter q).length := by
  induction keys with
  | nil => rfl
  | cons k t ih =>
    cases h : q k
    · simp [List.filter_cons, h, ih]
    · simp [List.filter_cons, h, ih]
      omega

theorem sum_bucket_lengths {K R : Type} (keys : List K) (p : K → R → Bool)
    (rs : List R) (h : ∀ r ∈ rs, (keys.filter (fun k => p k r)).length = 1) :
    (keys.map (fun k => (rs.filter (p k)).length)).sum = rs.length := by
  induction rs with
  | nil => simp
  | cons r t ih =>
    have h1 : ∀ x ∈ t, (keys.filter (fun k => p k x)).length = 1 :=
      fun x hx => h x (List.mem_cons_of_mem r hx)
    have hr := h r (List.mem_cons_self r t)
    have hsplit : ∀ k, ((r :: t).filter (p k)).length =
        (if p k r then 1 else 0) + (t.filter (p k)).length := by
      intro k
      cases hpk : p k r
      · simp [List.filter_cons, hpk]
      · simp [List.filter_cons, hpk]
        omega
    calc (keys.map fun k => ((r :: t).filter (p k)).length).sum
        = (keys.map fun k =>
            (if p k r then 1 else 0) + (t.filter (p k)).length).sum := by
          rw [List.map_congr_left (fun k _ => hsplit k)]
      _ = (keys.map fun k => if p k r then 1 else 0).sum +
            (keys.map fun k => (t.filter (p k)).length).sum :=
          sum_map_add_nat keys _ _
      _ = (keys.filter fun k => p k r).length + t.length := by
          rw [sum_ite_length, ih h1]
      _ = (r :: t).length := by rw [hr]; simp [Nat.add_comm]

theorem month_bucket_unique : ∀ n, n < 13 → 1 ≤ n →
    (monthsList.filter (fun m => decide (n = m))).length = 1 := by decide

theorem year_bucket_unique_shifted : ∀ d, d < 10 →
    (yearsList.filter (fun y => decide (2014 + d = y))).length = 1 := by decide

theorem year_bucket_unique (n : Nat) (h1 : n < 2024) (h2 : 2014 ≤ n) :
    (yearsList.filter (fun y => decide (n = y))).length = 1 := by
  have hd : 2014 + (n - 2014) = n := by omega
  rw [← hd]
  exact year_bucket_unique_shifted (n - 2014) (by omega)

theorem season_bucket_unique : ∀ n, n < 13 → 1 ≤ n →
    (seasonsList.filter (fun s => decide (n ∈ s.2))).length = 1 := by decide

theorem aggregateValid_length (rs : List ObsRecord)
    (h : ∀ r ∈ rs, r.lstMean.isSome = true) :
    (aggregateValid rs).length = rs.length := by
  induction rs with
  | nil => rfl
  | cons r t ih =>
    have hr := h r (List.mem_cons_self r t)
    rcases Option.isSome_iff_exists.mp hr with ⟨a, ha⟩
    have ht := ih (fun x hx => h x (List.mem_cons_of_mem r hx))
    unfold aggregateValid at ht ⊢
    simp only [List.map_cons, ha, List.filterMap_cons, id_eq,
      List.length_cons, ht]

/-- Claim C6: for valid records with months 1-12 and years 2014-2023,
each record lies in exactly one month bucket, one year bucket and one
season bucket, so the monthly, yearly and seasonal bucket counts each sum
to the total valid-record count. -/
theorem bucket_counts_partition (ts : List ObsRecord)
    (hval : ∀ r ∈ ts, r.lstMean.isSome = true)
    (hm : ∀ r ∈ ts, 1 ≤ r.month ∧ r.month ≤ 12)
    (hy : ∀ r ∈ ts, 2014 ≤ r.year ∧ r.year ≤ 2023) :
    ((monthsList.map (fun m => (monthStat ts m).count)).sum = ts.length) ∧
    ((yearsList.map (fun y => (yearStat ts y).count)).sum = ts.length) ∧
    ((seasonsList.map (fun s => (seasonStat ts s.2).count)).sum = ts.length) ∧
    (∀ r ∈ ts,
      (monthsList.filter (fun m => decide (r.month = m))).length = 1 ∧
      (yearsList.filter (fun y => decide (r.year = y))).length = 1 ∧
      (seasonsList.filter (fun s => decide (r.month ∈ s.2))).length = 1) := by
  have hvts : validTimeSeries ts = ts := List.filter_eq_self.mpr hval
  have hgen : ∀ (q : ObsRecord → Bool),
      (aggregateValid ((validTimeSeries ts).filter q)).length =
        (ts.filter q).length := by
    intro q
    rw [hvts]
    exact aggregateValid_length (ts.filter q)
      (fun r hr => hval r (List.mem_filter.mp hr).1)
  refine ⟨?_, ?_, ?_, ?_⟩
  · rw [show (monthsList.map (fun m => (monthStat ts m).count)) =
        monthsList.map (fun m =>
          (ts.filter (fun r => decide (r.month = m))).length) from
      List.map_congr_left (fun m _ => hgen (fun r => decide (r.month = m)))]
    exact sum_bucket_lengths monthsList (fun m r => decide (r.month = m)) ts
      (fun r hr => month_bucket_unique r.month
        (Nat.lt_succ_of_le (hm r hr).2) (hm r hr).1)
  · rw [show (yearsList.map (fun y => (yearStat ts y).count)) =
        yearsList.map (fun y =>
          (ts.filter (fun r => decide (r.year = y))).length) from
      List.map_congr_left (fun y _ => hgen (fun r => decide (r.year = y)))]
    exact sum_bucket_lengths yearsList (fun y r => decide (r.year = y)) ts
      (fun r hr => year_bucket_unique r.year
        (Nat.lt_succ_of_le (hy r hr).2) (hy r hr).1)
  · rw [show (seasonsList.map (fun s => (seasonStat ts s.2).count)) =
        seasonsList.map (fun s =>
          (ts.filter (fun r => decide (r.month ∈ s.2))).length) from
      List.map_congr_left (fun s _ => hgen (fun r => decide (r.month ∈ s.2)))]
    exact sum_bucket_lengths seasonsList (fun s r => decide (r.month ∈ s.2)) ts
      (fun r hr => season_bucket_unique r.month
        (Nat.lt_succ_of_le (hm r hr).2) (hm r hr).1)
  · intro r hr
    exact ⟨month_bucket_unique r.month (Nat.lt_succ_of_le (hm r hr).2) (hm r hr).1,
      year_bucket_unique r.year (Nat.lt_succ_of_le (hy r hr).2) (hy r hr).1,
      season_bucket_unique r.month (Nat.lt_succ_of_le (hm r hr).2) (hm r hr).1⟩

theorem bucket_counts_partition_witness :
    ((monthsList.map (fun m => (monthStat statRecs m).count)).sum =
      statRecs.length) ∧
    ((yearsList.map (fun y => (yearStat statRecs y).count)).sum =
      statRecs.length) ∧
    ((seasonsList.map (fun s => (seasonStat statRecs s.2).count)).sum =
      statRecs.length) ∧
    (∀ r ∈ statRecs,
      (monthsList.filter (fun m => decide (r.month = m))).length = 1 ∧
      (yearsList.filter (fun y => decide (r.year = y))).length = 1 ∧
      (seasonsList.filter (fun s => decide (r.month ∈ s.2))).length = 1) :=
  bucket_counts_partition statRecs (by decide) (by decide) (by decide)

end LSTTool
